import Mathlib

/-!
Verification of the cell2 optical-flow pipeline (src/src/memory.py,
src/src/flow.py, src/src/tiffstack.py) against its specification.

Shallow embedding conventions:
* Python dicts holding JSON data (the `types.json` registry) are modelled as
  `String → Option α` maps; the registry file content is explicit state.
* External library calls (scipy `gaussian_laplace`, cv2 blurs /
  `calcOpticalFlowFarneback`) are opaque function parameters of the embedded
  definitions: the repository code under verification is the dispatch,
  ordering and bookkeeping logic around them.
* Unbounded Python `while True` loops are embedded with an explicit fuel
  argument (as core Lean does for `Nat.toDigitsCore`); adequacy of the fuel
  supplied by the wrapper is proven, not assumed.
* Fallible operations (`np.stack` on an empty list, failed `assert`
  statements) return `Except String α`.
-/

namespace Cell2

/-! ## memory.py: `number_to_tag` (nested in `save_trajectory`, lines 141-148)

Python source:
```
def number_to_tag(number):
    tag = ''
    while True:
        tag = chr(ord('a') + number % 26) + tag
        number = number // 26
        if number == 0:
            break
    return tag
```
The do-while loop consumes one fuel unit per iteration; `number` strictly
decreases across iterations, so fuel `number + 1` always suffices
(`number_to_tag_go_spec` below is proven for any sufficient fuel). -/

def number_to_tag_go (fuel : Nat) (number : Nat) (tag : List Char) : List Char :=
  match fuel with
  | 0 => tag
  | fuel + 1 =>
    let tag' := Char.ofNat (97 + number % 26) :: tag
    if number / 26 = 0 then tag' else number_to_tag_go fuel (number / 26) tag'

def number_to_tag (number : Nat) : String :=
  ⟨number_to_tag_go (number + 1) number []⟩

/-- Decoding a letter tag back to a number: the left fold matching the
most-significant-first digit order produced by `number_to_tag`. -/
def tag_value (l : List Char) : Nat :=
  l.foldl (fun a c => a * 26 + (c.toNat - 97)) 0

/-! ## memory.py: the `types.json` registry (`save_type`, `load_params`,
`init_memory`)

The registry file is a JSON dict from stack-type name to a parameter record
`{'process': …, 'flow': …, 'trajectory': …}`; we model the file content as a
`String → Option (Params V)` map with the three parameter sub-dicts abstracted
to an arbitrary value type `V`.  The compiled-in module-level defaults
(`default_process`, `default_flow`, `default_trajectory` from defaults.py) are
mutable Python globals, so they are passed explicitly as a `Defaults V`
argument wherever the source reads them. -/

structure Params (V : Type) where
  process : V
  flow : V
  trajectory : V
deriving DecidableEq

structure Defaults (V : Type) where
  default_process : V
  default_flow : V
  default_trajectory : V

def TypesFile (V : Type) : Type := String → Option (Params V)

/-- The empty registry content written by `json.dump({}, f)`. -/
def empty_types (V : Type) : TypesFile V := fun _ => none

/-- Filesystem state touched by memory.py: the two directories created by
`init_memory`, the `types.json` registry content (`none` = file absent), and
all other persisted files (stack arrays, flows, …), which memory-management
code must leave alone. -/
structure MemFS (V : Type) where
  main_dir : Bool
  inbox_dir : Bool
  types_json : Option (TypesFile V)
  other_files : String → Bool

/-- memory.py lines 12-34: `os.makedirs(main_path, exist_ok=True)`,
`os.makedirs(inbox_path, exist_ok=True)`, then unconditionally
`open(types_path, "w")` and `json.dump({}, f)`. -/
def init_memory {V : Type} (fs : MemFS V) : MemFS V :=
  { fs with
    main_dir := true
    inbox_dir := true
    types_json := some (empty_types V) }

/-- memory.py lines 60-80: read `types.json`, set `types[stacktype] = params`,
write the dict back. -/
def save_type {V : Type} (types : TypesFile V) (stacktype : String)
    (params : Params V) : TypesFile V :=
  fun s => if s = stacktype then some params else types s

/-- memory.py lines 240-258: read `types.json`; if `stacktype` is absent
build a fresh params dict referencing the current compiled-in defaults,
else take the stored entry; return it.  The function performs no write, so
the registry content is returned unchanged alongside the result. -/
def load_params {V : Type} (d : Defaults V) (types : TypesFile V)
    (stacktype : String) : Params V × TypesFile V :=
  match types stacktype with
  | none => (⟨d.default_process, d.default_flow, d.default_trajectory⟩, types)
  | some p => (p, types)

/-! ## memory.py lines 36-57: `get_unique_path`

```
i = 0
while True:
    file_name = pattern_fn(i)
    file_path = save_dir / file_name
    if not file_path.exists():
        return file_path
    i += 1
```
The filesystem's existing files under `save_dir` are a finite set `fs` of
path strings; the loop returns `pattern_fn i` for the least `i` whose path
does not exist.  Termination (which the Python loop leaves implicit) holds
whenever `pattern_fn` is injective, since a finite set cannot contain the
infinite range of an injective function. -/

lemma exists_unused (fs : Finset String) (pattern_fn : Nat → String)
    (hp : Function.Injective pattern_fn) : ∃ i, pattern_fn i ∉ fs := by
  by_contra h
  push_neg at h
  have hsub : Set.range pattern_fn ⊆ (fs : Set String) := by
    rintro _ ⟨i, rfl⟩; exact h i
  have hinf : (Set.range pattern_fn).Infinite :=
    Set.infinite_range_of_injective hp
  exact hinf (Set.Finite.subset fs.finite_toSet hsub)

def get_unique_path (fs : Finset String) (pattern_fn : Nat → String)
    (hp : Function.Injective pattern_fn) : String :=
  pattern_fn (Nat.find (exists_unused fs pattern_fn hp))

/-! ## flow.py lines 24-53: `preprocess_frame`

The five filter steps are external library calls (scipy `gaussian_laplace`,
cv2 `GaussianBlur` / `medianBlur` / `normalize` / `convertScaleAbs`), each
already specialised to the parameters drawn from its config sub-dict; the
repository logic under verification is the skip-set dispatch and the step
order.  Note the source's condition for the first step is
`if 'laplace' in skip:` — the step runs when its name IS in the skip list —
while every later step uses `if "<name>" not in skip:`. -/

structure PreprocessSteps (Frame : Type) where
  gaussian_laplace : Frame → Frame
  gaussianBlur : Frame → Frame
  medianBlur : Frame → Frame
  normalize : Frame → Frame
  convertScaleAbs : Frame → Frame

def preprocess_frame {Frame : Type} (steps : PreprocessSteps Frame)
    (skip : List String) (frame : Frame) : Frame :=
  let frame := if "laplace" ∈ skip then steps.gaussian_laplace frame else frame
  let frame := if "gauss" ∉ skip then steps.gaussianBlur frame else frame
  let frame := if "median" ∉ skip then steps.medianBlur frame else frame
  let frame := if "normalize" ∉ skip then steps.normalize frame else frame
  let frame := if "convert" ∉ skip then steps.convertScaleAbs frame else frame
  frame

/-- A concrete stand-in for the specialised
`cv2.calcOpticalFlowFarneback` call used when testing the embedded
`optical_flow` on closed inputs: frames are naturals, the returned 4×5×2
displacement field is constantly their sum. -/
def demo_farneback (a b : Nat) : Fin 4 → Fin 5 → Fin 2 → ℝ :=
  fun _ _ _ => (a : ℝ) + b

/-- Trace instrumentation for `preprocess_frame`: frames are lists of step
names, and each "filter" prepends its own name, so the output records which
steps ran and in which order (the first step applied ends up last). -/
def traceSteps : PreprocessSteps (List String) where
  gaussian_laplace := List.cons "laplace"
  gaussianBlur := List.cons "gauss"
  medianBlur := List.cons "median"
  normalize := List.cons "normalize"
  convertScaleAbs := List.cons "convert"

/-! ## flow.py lines 79-91: `combine_flows`

A motion field of shape (k, H, W, 2) is modelled as
`Fin k → Fin H → Fin W → Fin 2 → ℝ`.  `np.stack(l, axis=1)` of a list of
such fields inserts the list position as the new axis 1. -/

def Field (k H W : Nat) : Type := Fin k → Fin H → Fin W → Fin 2 → ℝ

/-- Element-wise `+` on numpy arrays of equal shape. -/
def np_add {k H W : Nat} (x y : Field k H W) : Field k H W :=
  fun i h w c => x i h w c + y i h w c

/-- `np.stack(l, axis=1)` for a list of rank-4 fields: the result has rank 5
with the new axis (length `l.length`) in position 1. -/
def np_stack_axis1 {k H W : Nat} (l : List (Field k H W)) :
    Fin k → Fin l.length → Fin H → Fin W → Fin 2 → ℝ :=
  fun i j => l.get j i

/-- flow.py lines 79-91: `sum_arr = flow_list[0] + flow_list[1]`, then
`np.stack([sum_arr, flow_list[0], flow_list[1]], axis=1)`.  Python raises
`IndexError` when the list has fewer than two entries. -/
def combine_flows {k H W : Nat} (flow_list : List (Field k H W)) :
    Except String (Fin k → Fin 3 → Fin H → Fin W → Fin 2 → ℝ) :=
  match flow_list with
  | a :: b :: _ => .ok (np_stack_axis1 [np_add a b, a, b])
  | _ => .error "IndexError: list index out of range"

/-! ## flow.py lines 124-163: `optical_flow`

Frames and per-pair displacement fields are abstract types `α`, `β`;
`cv2.calcOpticalFlowFarneback`, specialised to the seven numeric parameters
gathered in `flow_args`, is the opaque parameter `farneback`.  The source
builds `pairs = [(arr[i], arr[i+1], flow_args) for i in range(arr.shape[0]-1)]`,
maps `compute_flow_pair` over them with a worker pool, and returns
`np.stack(flow_list)` — which raises `ValueError` when `flow_list` is empty. -/

/-- `np.stack` on a list of equal-shaped arrays along a new leading axis;
raises on an empty list. -/
def np_stack {β : Type} (l : List β) : Except String (List β) :=
  if l.isEmpty then .error "ValueError: need at least one array to stack"
  else .ok l

def flow_pairs {α : Type} [Inhabited α] (arr : List α) : List (α × α) :=
  (List.range (arr.length - 1)).map fun i => (arr.getD i default, arr.getD (i + 1) default)

/-- Sequential semantics of `pool.map(compute_flow_pair, pairs)` followed by
`np.stack(flow_list)`: `Pool.map` returns results in the order of its input
iterable. -/
def optical_flow {α β : Type} [Inhabited α] (farneback : α → α → β)
    (arr : List α) : Except String (List β) :=
  let pairs := flow_pairs arr
  let flow_list := pairs.map fun p => farneback p.1 p.2
  np_stack flow_list

/-- Parallel-execution semantics of the same code: the pool's workers finish
the frame pairs in an arbitrary completion order `order` (a permutation of
the pair indices), producing tagged results; `Pool.map` reassembles them by
original input index before returning. -/
def optical_flow_parallel {α β : Type} [Inhabited α] [Inhabited β]
    (farneback : α → α → β) (arr : List α) (order : List Nat) :
    Except String (List β) :=
  let pairs := flow_pairs arr
  let completed := order.map fun i =>
    (i, (fun p => farneback p.1 p.2) (pairs.getD i default))
  let flow_list := (List.range pairs.length).map fun i =>
    ((completed.lookup i).getD default)
  np_stack flow_list

/-! ## tiffstack.py: `TiffStack.__init__` (lines 34-57) and
`isolate_channel` (lines 84-95)

`__init__` wraps the page reading in `try: … except Exception as e: print(…)`;
the two `assert` statements inside the `try` raise `AssertionError`, which is
an `Exception` subclass, so a violated assertion is caught, a message is
printed, and the constructor continues into `mem.load_params` and
`self.save_TiffStack()`.  The model records what the constructor did. -/

structure InitOutcome where
  load_error : Option String
  arr_loaded : Bool
  params_loaded : Bool
  type_saved : Bool
deriving DecidableEq

/-- The body of the `try` block: the two assertions guarding page count and
dtype; `.ok` means `self.arr` was filled in. -/
def tiffstack_load (total_pages n_channels : Nat) (ref_dtype dtype : String) :
    Except String Unit :=
  if total_pages % n_channels = 0 then
    if ref_dtype = dtype then .ok ()
    else .error "AssertionError: unexpected dtype"
  else .error "AssertionError: pages not divisible by n_channels"

/-- tiffstack.py lines 34-57: run the `try` block; on any exception print it
and fall through; then unconditionally call `load_params` and
`save_TiffStack`. -/
def tiffstack_init (total_pages n_channels : Nat) (ref_dtype dtype : String) :
    InitOutcome :=
  match tiffstack_load total_pages n_channels ref_dtype dtype with
  | .ok _ =>
    { load_error := none, arr_loaded := true, params_loaded := true, type_saved := true }
  | .error e =>
    { load_error := some e, arr_loaded := false, params_loaded := true, type_saved := true }

/-- tiffstack.py lines 84-95: `assert 0 <= channel_idx < self.arr.shape[1]`,
then `return self.arr[:, channel_idx, ...]`.  The per-frame channel lists
have length `n_channels = arr.shape[1]`; this assertion is NOT inside any
`try`, so its failure propagates. -/
def isolate_channel {γ : Type} [Inhabited γ] (n_channels : Nat)
    (arr : List (List γ)) (channel_idx : Nat) : Except String (List γ) :=
  if channel_idx < n_channels then .ok (arr.map fun fr => fr.getD channel_idx default)
  else .error "AssertionError: Channel index out of range"

/-! ## Helper lemmas -/

lemma char_toNat_of_lt (k : Nat) (h : k < 26) :
    (Char.ofNat (97 + k)).toNat = 97 + k := by
  interval_cases k <;> decide

lemma number_to_tag_go_spec :
    ∀ (fuel n : Nat) (acc : List Char), n < fuel →
      List.foldl (fun a c => a * 26 + (c.toNat - 97)) 0
        (number_to_tag_go fuel n acc) =
      List.foldl (fun a c => a * 26 + (c.toNat - 97)) n acc := by
  intro fuel
  induction fuel with
  | zero => intro n acc h; omega
  | succ fuel ih =>
    intro n acc h
    simp only [number_to_tag_go]
    have hc : (Char.ofNat (97 + n % 26)).toNat = 97 + n % 26 :=
      char_toNat_of_lt (n % 26) (Nat.mod_lt _ (by norm_num))
    by_cases h0 : n / 26 = 0
    · have hn : n < 26 := by
        rcases Nat.lt_or_ge n 26 with h' | h'
        · exact h'
        · exfalso; have := Nat.div_le_div_right (c := 26) h'
          simp at this; omega
      simp only [h0, if_true, List.foldl_cons, hc]
      have : n % 26 = n := Nat.mod_eq_of_lt hn
      simp [this]
    · have hlt : n / 26 < fuel := by
        have h1 : n / 26 < n := Nat.div_lt_self (by omega) (by norm_num)
        omega
      simp only [h0, if_false, List.foldl_cons]
      rw [ih (n / 26) _ hlt]
      simp only [List.foldl_cons, hc]
      have : n / 26 * 26 + (97 + n % 26 - 97) = n := by
        have := Nat.div_add_mod n 26
        omega
      rw [this]

lemma tag_value_number_to_tag (n : Nat) : tag_value (number_to_tag n).data = n := by
  have h := number_to_tag_go_spec (n + 1) n [] (by omega)
  simpa [tag_value, number_to_tag] using h

lemma number_to_tag_injective : Function.Injective number_to_tag := by
  intro a b h
  have h' := congrArg (fun s => tag_value s.data) h
  simpa [tag_value_number_to_tag] using h'

lemma lookup_map_self {β : Type} (g : Nat → β) :
    ∀ (order : List Nat) (j : Nat), j ∈ order →
      (order.map fun i => (i, g i)).lookup j = some (g j) := by
  intro order
  induction order with
  | nil => intro j hj; simp at hj
  | cons i rest ih =>
    intro j hj
    by_cases hij : j = i
    · subst hij; simp [List.lookup]
    · have hb : (j == i) = false := beq_eq_false_iff_ne.mpr hij
      have hj' : j ∈ rest := by
        rcases List.mem_cons.mp hj with h | h
        · exact absurd h hij
        · exact h
      simp [List.lookup, hb, ih j hj']

lemma flow_pairs_length {α : Type} [Inhabited α] (arr : List α) :
    (flow_pairs arr).length = arr.length - 1 := by
  simp [flow_pairs]

lemma replicate_path_injective :
    Function.Injective (fun n => String.mk (List.replicate n 'x')) := by
  intro a b h
  have h' := congrArg (fun s => s.data.length) h
  simpa using h'

/-! ## C1: the trajectory letter-suffix encoding -/

/-- C1 counterexample: the claim states that `number_to_tag` is the bijective
base-26 numeral scheme with `encode(26) = "aa"`; on the concrete input 26 the
code returns `"ba"`, the naive base-26-with-a-zero-digit value the claim
explicitly excludes. -/
theorem number_to_tag_26_is_ba_not_aa :
    number_to_tag 26 = "ba" ∧ number_to_tag 26 ≠ "aa" := by
  constructor <;> decide

/-- C1 (amended): `number_to_tag` is the NAIVE base-26 positional numeral over
the lowercase letters with `'a'` as the zero digit and no leading zeros:
encode(0) = "a", encode(25) = "z", encode(26) = "ba", encode(701) = "baz",
encode(702) = "bba"; the encoding is injective over the non-negative
integers. -/
theorem number_to_tag_naive_base26_injective :
    number_to_tag 0 = "a" ∧ number_to_tag 25 = "z" ∧
    number_to_tag 26 = "ba" ∧ number_to_tag 701 = "baz" ∧
    number_to_tag 702 = "bba" ∧ Function.Injective number_to_tag :=
  ⟨by decide, by decide, by decide, by decide, by decide, number_to_tag_injective⟩

/-! ## C2: `load_params` on an absent stack type -/

/-- C2 counterexample: on an unseen stack type, `load_params` does not persist
anything — the registry is still empty after the call — and a second resolve
of the same type after the compiled-in defaults were edited returns the edited
defaults, not the config returned first.  (Concretely: defaults `⟨1,1,1⟩`
first, `⟨2,1,1⟩` second, type `"t"`, empty registry.) -/
theorem load_params_does_not_persist :
    (load_params (⟨1, 1, 1⟩ : Defaults Nat) (empty_types Nat) "t").2 "t" = none ∧
    (load_params (⟨2, 1, 1⟩ : Defaults Nat)
        ((load_params (⟨1, 1, 1⟩ : Defaults Nat) (empty_types Nat) "t").2) "t").1 ≠
      (load_params (⟨1, 1, 1⟩ : Defaults Nat) (empty_types Nat) "t").1 := by
  refine ⟨rfl, ?_⟩
  simp [load_params, empty_types]

/-- C2 (amended): for a stack-type identifier absent from the registry,
`load_params` synthesizes a config from the CURRENT compiled-in defaults
(process, flow, trajectory) and returns it WITHOUT persisting it: the registry
content is returned unchanged, so a second resolve of the same still-absent
identifier again reads the compiled-in defaults and reflects any edits made to
them between the calls; for a present identifier the stored config is returned
unchanged. -/
theorem load_params_spec {V : Type} (d d' : Defaults V) (types : TypesFile V)
    (t : String) :
    (types t = none →
      (load_params d types t).1 =
        ⟨d.default_process, d.default_flow, d.default_trajectory⟩) ∧
    (load_params d types t).2 = types ∧
    (types t = none →
      (load_params d' ((load_params d types t).2) t).1 =
        ⟨d'.default_process, d'.default_flow, d'.default_trajectory⟩) ∧
    (∀ p, types t = some p → (load_params d types t).1 = p) := by
  refine ⟨fun h => ?_, ?_, fun h => ?_, fun p h => ?_⟩
  · simp [load_params, h]
  · rcases h : types t with _ | p <;> simp [load_params, h]
  · simp [load_params, h]
  · simp [load_params, h]

/-- Witness for `load_params_spec` at the empty registry, type `"t"`,
defaults `⟨1,2,3⟩` then `⟨4,5,6⟩`. -/
theorem load_params_spec_witness :
    (load_params (⟨1, 2, 3⟩ : Defaults Nat) (empty_types Nat) "t").1 =
      ⟨1, 2, 3⟩ ∧
    (load_params (⟨4, 5, 6⟩ : Defaults Nat)
        ((load_params (⟨1, 2, 3⟩ : Defaults Nat) (empty_types Nat) "t").2) "t").1 =
      ⟨4, 5, 6⟩ :=
  ⟨(load_params_spec (⟨1, 2, 3⟩ : Defaults Nat) (⟨4, 5, 6⟩ : Defaults Nat)
      (empty_types Nat) "t").1 rfl,
   (load_params_spec (⟨1, 2, 3⟩ : Defaults Nat) (⟨4, 5, 6⟩ : Defaults Nat)
      (empty_types Nat) "t").2.2.1 rfl⟩

/-! ## C9: `save_type` overwrites one entry and preserves the rest -/

/-- C9: `save_type types t p` stores `p` under `t`, unconditionally
overwriting any prior entry, and leaves the entry of every other stack-type
name unchanged. -/
theorem save_type_overwrites_and_preserves {V : Type} (types : TypesFile V)
    (t s : String) (p : Params V) :
    save_type types t p t = some p ∧
    (s ≠ t → save_type types t p s = types s) := by
  constructor
  · simp [save_type]
  · intro h; simp [save_type, h]

/-- Witness for `save_type_overwrites_and_preserves`: a registry already
holding an entry for `"a"`; saving overwrites `"a"` and preserves `"b"`. -/
theorem save_type_witness :
    save_type (fun s => if s = "a" then some ⟨9, 9, 9⟩ else none : TypesFile Nat)
        "a" ⟨1, 2, 3⟩ "a" = some ⟨1, 2, 3⟩ ∧
    save_type (fun s => if s = "a" then some ⟨9, 9, 9⟩ else none : TypesFile Nat)
        "a" ⟨1, 2, 3⟩ "b" =
      (fun s => if s = "a" then some ⟨9, 9, 9⟩ else none : TypesFile Nat) "b" :=
  ⟨(save_type_overwrites_and_preserves _ "a" "b" ⟨1, 2, 3⟩).1,
   (save_type_overwrites_and_preserves _ "a" "b" ⟨1, 2, 3⟩).2 (by decide)⟩

/-! ## C10: `init_memory` erases the persisted registry -/

/-- C10: for every prior filesystem state — including one whose `types.json`
already exists and holds saved stack-type configs — `init_memory` rewrites
`types.json` to the empty mapping (so every stack-type lookup afterwards is
`none`), creates the two directories, and touches no other persisted file. -/
theorem init_memory_erases_registry {V : Type} (fs : MemFS V) (t : String) :
    (init_memory fs).types_json = some (empty_types V) ∧
    empty_types V t = none ∧
    (init_memory fs).main_dir = true ∧
    (init_memory fs).inbox_dir = true ∧
    (init_memory fs).other_files = fs.other_files :=
  ⟨rfl, rfl, rfl, rfl, rfl⟩

/-! ## C3: `preprocess_frame` skip-set dispatch -/

/-- C3 (code bug): the claim — matching the function's own docstring, where
`skip` lists "steps to skip" — says the Laplacian-of-Gaussian step runs iff
`'laplace'` is NOT in the skip set.  The code's condition is inverted
(`if 'laplace' in skip:`): with an empty skip set the edge-enhancement step
never runs (trace lacks `"laplace"` while the four later steps all ran), and
with `skip = ['laplace']` it does run, first (it sits last in the cons-built
trace, before Gaussian, median, normalization and conversion). -/
theorem preprocess_frame_laplace_inverted :
    preprocess_frame traceSteps [] ([] : List String) =
      ["convert", "normalize", "median", "gauss"] ∧
    preprocess_frame traceSteps ["laplace"] ([] : List String) =
      ["convert", "normalize", "median", "gauss", "laplace"] := by
  constructor <;> rfl

/-! ## C4: `optical_flow` result shape and the single-frame boundary case -/

/-- C4 counterexample: on a single-frame stack the pair list is empty and
`np.stack` of the empty result list raises `ValueError` — `optical_flow` does
NOT return a result with an empty leading dimension as the claim states. -/
theorem optical_flow_single_frame_raises :
    optical_flow demo_farneback ([5] : List Nat) =
      .error "ValueError: need at least one array to stack" := rfl

/-- C4 (amended): for a channel tensor of `N ≥ 2` frames, `optical_flow`
returns a stack of `N - 1` displacement fields of shape (H, W, 2), entry `i`
being the Farneback field of the pair (frame i, frame i+1); for `N = 1` the
frame-pair list is empty and the final `np.stack` raises `ValueError` instead
of returning an empty-leading-dimension result. -/
theorem optical_flow_shape {α : Type} [Inhabited α] {H W : Nat}
    (farneback : α → α → (Fin H → Fin W → Fin 2 → ℝ)) (arr : List α) :
    (2 ≤ arr.length →
      ∃ l, optical_flow farneback arr = .ok l ∧
        l.length = arr.length - 1 ∧
        ∀ i, i < arr.length - 1 →
          l.getD i default =
            farneback (arr.getD i default) (arr.getD (i + 1) default)) ∧
    (arr.length = 1 →
      optical_flow farneback arr =
        .error "ValueError: need at least one array to stack") := by
  constructor
  · intro h2
    have hpos : ¬(arr.length - 1 = 0) := by omega
    have key : optical_flow farneback arr =
        .ok ((List.range (arr.length - 1)).map
          (fun i => farneback (arr.getD i default) (arr.getD (i + 1) default))) := by
      simp [optical_flow, np_stack, flow_pairs, List.map_map, Function.comp,
        List.isEmpty_iff, List.range_eq_nil, hpos]
    refine ⟨_, key, by simp, ?_⟩
    intro i hi
    rw [List.getD_eq_getElem _ _ (by simpa using hi)]
    simp
  · intro h1
    simp [optical_flow, np_stack, flow_pairs, h1]

/-- Witness for `optical_flow_shape` on the concrete three-frame stack
`[1, 2, 3]` (both hypotheses discharged: `2 ≤ 3` for the first conjunct and
a second application at the one-frame stack `[7]`). -/
theorem optical_flow_shape_witness :
    (∃ l, optical_flow demo_farneback ([1, 2, 3] : List Nat) = .ok l ∧
      l.length = ([1, 2, 3] : List Nat).length - 1 ∧
      ∀ i, i < ([1, 2, 3] : List Nat).length - 1 →
        l.getD i default =
          demo_farneback (([1, 2, 3] : List Nat).getD i default)
            (([1, 2, 3] : List Nat).getD (i + 1) default)) ∧
    optical_flow demo_farneback ([7] : List Nat) =
      .error "ValueError: need at least one array to stack" :=
  ⟨(optical_flow_shape demo_farneback [1, 2, 3]).1 (by decide),
   (optical_flow_shape demo_farneback [7]).2 rfl⟩

/-! ## C5: `combine_flows` planes -/

/-- C5: for every pair of motion fields `a`, `b` of shape (k, H, W, 2),
`combine_flows [a, b]` returns an array of shape (k, 3, H, W, 2) whose plane 0
(along axis 1) is the element-wise sum `a + b`, plane 1 is `a`, and plane 2
is `b`, for all `k`, `H`, `W`. -/
theorem combine_flows_planes {k H W : Nat} (a b : Field k H W) :
    ∃ r, combine_flows [a, b] = .ok r ∧
      (∀ i h w c, r i 0 h w c = a i h w c + b i h w c) ∧
      (∀ i h w c, r i 1 h w c = a i h w c) ∧
      (∀ i h w c, r i 2 h w c = b i h w c) := by
  refine ⟨np_stack_axis1 [np_add a b, a, b], rfl, ?_, ?_, ?_⟩ <;>
    · intro i h w c; rfl

/-! ## C6: `get_unique_path` freshness, idempotence, post-creation change -/

/-- C6: for every finite set `fs` of existing paths and every injective naming
function, `get_unique_path` returns a path that does not exist at call time; a
second call with the same arguments and no intervening file creation returns
the same path (whatever termination evidence it is passed); and a call made
after a file has been created at the first returned path returns a different
path. -/
theorem get_unique_path_spec (fs : Finset String) (pattern_fn : Nat → String)
    (hp hp' : Function.Injective pattern_fn) :
    get_unique_path fs pattern_fn hp ∉ fs ∧
    get_unique_path fs pattern_fn hp' = get_unique_path fs pattern_fn hp ∧
    get_unique_path (insert (get_unique_path fs pattern_fn hp) fs) pattern_fn hp ≠
      get_unique_path fs pattern_fn hp := by
  refine ⟨Nat.find_spec (exists_unused fs pattern_fn hp), rfl, ?_⟩
  intro heq
  have hnew := Nat.find_spec
    (exists_unused (insert (get_unique_path fs pattern_fn hp) fs) pattern_fn hp)
  rw [show pattern_fn (Nat.find (exists_unused
      (insert (get_unique_path fs pattern_fn hp) fs) pattern_fn hp)) =
      get_unique_path (insert (get_unique_path fs pattern_fn hp) fs) pattern_fn hp
    from rfl, heq] at hnew
  exact hnew (Finset.mem_insert_self _ _)

/-- Witness for `get_unique_path_spec`: the empty directory and the injective
naming function `n ↦ "x" * n`. -/
theorem get_unique_path_witness :
    get_unique_path (∅ : Finset String)
        (fun n => String.mk (List.replicate n 'x')) replicate_path_injective ∉
      (∅ : Finset String) ∧
    get_unique_path (∅ : Finset String)
        (fun n => String.mk (List.replicate n 'x')) replicate_path_injective =
      get_unique_path (∅ : Finset String)
        (fun n => String.mk (List.replicate n 'x')) replicate_path_injective ∧
    get_unique_path
        (insert (get_unique_path (∅ : Finset String)
            (fun n => String.mk (List.replicate n 'x')) replicate_path_injective)
          (∅ : Finset String))
        (fun n => String.mk (List.replicate n 'x')) replicate_path_injective ≠
      get_unique_path (∅ : Finset String)
        (fun n => String.mk (List.replicate n 'x')) replicate_path_injective :=
  get_unique_path_spec (∅ : Finset String)
    (fun n => String.mk (List.replicate n 'x'))
    replicate_path_injective replicate_path_injective

/-! ## C7: parallel `optical_flow` refines the in-order sequential loop -/

/-- C7: whatever completion order the worker pool realises (any permutation
`order` of the frame-pair indices), the parallel `optical_flow` — workers
finishing in `order`, results reassembled by original pair index — returns
exactly the sequential result, whose entry `i` is the displacement field for
the pair (frame i, frame i+1), computed for i = 0 .. N-2 in order. -/
theorem optical_flow_parallel_matches_sequential {α β : Type} [Inhabited α]
    [Inhabited β] (farneback : α → α → β) (arr : List α) (order : List Nat)
    (hperm : order.Perm (List.range (arr.length - 1))) :
    optical_flow_parallel farneback arr order = optical_flow farneback arr := by
  have hlist : (List.range (flow_pairs arr).length).map
      (fun i => (((order.map fun i =>
          (i, (fun p : α × α => farneback p.1 p.2)
            ((flow_pairs arr).getD i default))).lookup i).getD default)) =
      (flow_pairs arr).map fun p => farneback p.1 p.2 := by
    apply List.ext_getElem
    · simp
    · intro i h1 h2
      have hi : i < (flow_pairs arr).length := by simpa using h2
      have hmem : i ∈ order := by
        rw [hperm.mem_iff, List.mem_range, ← flow_pairs_length arr]
        exact hi
      have hlook := lookup_map_self
        (fun i => (fun p : α × α => farneback p.1 p.2)
          ((flow_pairs arr).getD i default)) order i hmem
      simp only [List.getElem_map, List.getElem_range, hlook, Option.getD_some]
      rw [List.getD_eq_getElem _ _ hi]
  show np_stack ((List.range (flow_pairs arr).length).map
      (fun i => (((order.map fun i =>
          (i, (fun p : α × α => farneback p.1 p.2)
            ((flow_pairs arr).getD i default))).lookup i).getD default))) =
    np_stack ((flow_pairs arr).map fun p => farneback p.1 p.2)
  rw [hlist]

/-- Witness for `optical_flow_parallel_matches_sequential`: three frames, the
two frame pairs completed in reversed order `[1, 0]`. -/
theorem optical_flow_parallel_witness :
    optical_flow_parallel (fun a b => 10 * a + b) ([1, 2, 3] : List Nat) [1, 0] =
      optical_flow (fun a b => 10 * a + b) ([1, 2, 3] : List Nat) :=
  optical_flow_parallel_matches_sequential (fun a b => 10 * a + b)
    ([1, 2, 3] : List Nat) [1, 0] (by decide)

/-! ## C8: contract violations during stack loading -/

/-- C8 (code bug): the claim — and the code's own `assert` statements — say a
page count not divisible by the declared channel count, or a mismatched
sample dtype, aborts stack loading before any further pipeline step.  But the
asserts sit inside `__init__`'s `try: … except Exception: print(…)`, which
catches the `AssertionError` and falls through: on both failing inputs below
the constructor still runs `load_params` and `save_TiffStack` (with
`self.arr` never assigned).  Only `isolate_channel`'s out-of-range assertion,
outside any `try`, is actually fatal. -/
theorem tiffstack_init_swallows_assertions :
    tiffstack_init 7 3 "uint16" "uint16" =
      { load_error := some "AssertionError: pages not divisible by n_channels",
        arr_loaded := false, params_loaded := true, type_saved := true } ∧
    tiffstack_init 9 3 "uint8" "uint16" =
      { load_error := some "AssertionError: unexpected dtype",
        arr_loaded := false, params_loaded := true, type_saved := true } ∧
    isolate_channel 3 ([[1, 2, 3]] : List (List Nat)) 5 =
      .error "AssertionError: Channel index out of range" :=
  ⟨rfl, rfl, rfl⟩

end Cell2
